import Mathlib

/-!
# Verification of the usbip server protocol pipeline

Shallow embedding of the USB/IP server's reader/writer dispatch pipeline
(`src/socket.rs`), the import handling, and the descriptor verifier
(`src/util.rs`).  Bytes are modelled as natural numbers; the big-endian
`u32`/`i32` reads and writes of the source are made explicit.  The device
model (`device.rs` is not part of the sources at hand) is reconstructed
from the specification where noted; interface/device handlers are
abstracted as an explicit function parameter.
-/

set_option maxHeartbeats 1000000

namespace Usbip

/-- Big-endian bytes of a 32-bit value, as written by `write_u32`
(values are truncated to 32 bits exactly as a `u32` is). -/
def be32 (n : Nat) : List Nat :=
  [n / 2 ^ 24 % 256, n / 2 ^ 16 % 256, n / 2 ^ 8 % 256, n % 256]

/-- Big-endian bytes of a 16-bit value. -/
def be16 (n : Nat) : List Nat :=
  [n / 2 ^ 8 % 256, n % 256]

/-- Big-endian bytes of an `i32` written two's complement, as by `write_i32`. -/
def beI32 (i : Int) : List Nat :=
  be32 (i.emod (2 ^ 32)).toNat

/-- Value of four big-endian bytes.  Anything other than exactly four bytes
reads as 0, matching `read_u32(..).unwrap_or_default()` on a cursor holding
fewer than four remaining bytes. -/
def beVal4 : List Nat → Nat
  | [a, b, c, d] => a % 256 * 2 ^ 24 + b % 256 * 2 ^ 16 + c % 256 * 2 ^ 8 + d % 256
  | _ => 0

/-- Big-endian `u32` read at byte offset `off` of a buffer
(`Cursor::read_u32` after seeking to `off`). -/
def readU32At (l : List Nat) (off : Nat) : Nat :=
  beVal4 ((l.drop off).take 4)

/-- `Vec::resize(len, 0)` on a byte vector: truncate or zero-pad to `len`. -/
def resizeTo (len : Nat) (l : List Nat) : List Nat :=
  l.take len ++ List.replicate (len - l.length) 0

/-! ## Data model (`server.rs`, missing `device.rs`/`endpoint.rs`/`interface.rs`) -/

/-- `UsbEndpoint` (fields as in `server.rs`'s construction sites). -/
structure UsbEndpoint where
  address : Nat
  attributes : Nat
  max_packet_size : Nat
  interval : Nat
deriving DecidableEq

/-- `UsbInterface`, without the handler reference (handlers are abstracted
as a function parameter of the writer). -/
structure UsbInterface where
  interface_class : Nat
  interface_subclass : Nat
  interface_protocol : Nat
  endpoints : List UsbEndpoint
  string_interface : Nat
  class_specific_descriptor : List Nat
deriving DecidableEq

/-- `UsbDevice`: the fields that take part in the wire format and in
endpoint lookup.  Strings are byte lists. -/
structure UsbDevice where
  path : List Nat
  bus_id : List Nat
  bus_num : Nat
  dev_num : Nat
  speed : Nat
  vendor_id : Nat
  product_id : Nat
  device_class : Nat
  device_subclass : Nat
  device_protocol : Nat
  device_bcd : Nat
  usb_version : Nat
  configuration_value : Nat
  num_configurations : Nat
  ep0_in : UsbEndpoint
  ep0_out : UsbEndpoint
  interfaces : List UsbInterface
deriving DecidableEq

/-- `UsbIpCommand` (`server.rs`). -/
inductive UsbIpCommand where
  | ReqDevlist
  | ReqImport
  | CmdSubmit
  | CmdUnlink
deriving DecidableEq

/-- `UsbIpPacket` (`server.rs`). -/
structure UsbIpPacket where
  status : Nat
  sequence_number : Nat
  command : List Nat
  enum_command : UsbIpCommand
  data : List Nat
deriving DecidableEq

/-- Modelled from the spec: fixed-length NUL-padded string field
(`socket_write_fixed_string` in `util.rs` pads with zeros to `len`;
the spec bounds the string by `len`). -/
def padTo (len : Nat) (l : List Nat) : List Nat :=
  l.take len ++ List.replicate (len - l.length) 0

/-- Modelled from the spec: `write_dev` of the missing `device.rs`.  The
0x138-byte device record of section 4.6: path (256 bytes, NUL-padded),
bus-id (32 bytes, NUL-padded), bus number, dev number, speed (each u32),
vid, pid, device BCD (each u16), class, subclass, protocol, configuration
value, num configurations, num interfaces (each u8), all big-endian. -/
def write_dev (d : UsbDevice) : List Nat :=
  padTo 256 d.path ++ padTo 32 d.bus_id ++
  be32 d.bus_num ++ be32 d.dev_num ++ be32 d.speed ++
  be16 d.vendor_id ++ be16 d.product_id ++ be16 d.device_bcd ++
  [d.device_class % 256, d.device_subclass % 256, d.device_protocol % 256,
   d.configuration_value % 256, d.num_configurations % 256,
   d.interfaces.length % 256]

/-- Modelled from the spec: `write_dev_with_interfaces` of the missing
`device.rs` — the device record followed by one 4-byte record per
interface (class, subclass, protocol, padding). -/
def write_dev_with_interfaces (d : UsbDevice) : List Nat :=
  write_dev d ++
  (d.interfaces.map (fun i =>
    [i.interface_class % 256, i.interface_subclass % 256,
     i.interface_protocol % 256, 0])).flatten

/-- Modelled from the spec: `find_ep` of the missing `device.rs`
(section 4.3): scan first the synthesized EP0-IN/OUT, then every
interface's endpoint list; return the endpoint and the owning interface
(`none` meaning the device itself for EP0).  Addresses are matched
exactly, including the direction bit. -/
def find_ep (d : UsbDevice) (addr : Nat) :
    Option (UsbEndpoint × Option UsbInterface) :=
  if d.ep0_in.address = addr then some (d.ep0_in, none)
  else if d.ep0_out.address = addr then some (d.ep0_out, none)
  else
    match d.interfaces.find? (fun i =>
        i.endpoints.any (fun e => decide (e.address = addr))) with
    | some i =>
      (i.endpoints.find? (fun e => decide (e.address = addr))).map
        (fun e => (e, some i))
    | none => none

/-! ## Reader (`socket.rs`, `reader`)

One loop iteration of the reader, as a function from the unread byte
stream to the optionally enqueued packet and the remaining stream.
`none` collapses every path on which the connection ends (EOF on the
command word is an orderly close, a short read inside a frame is an
error; in both cases no packet is enqueued and the loop does not
continue). -/

def readerStep (stream : List Nat) : Option (Option UsbIpPacket × List Nat) :=
  if stream.length < 4 then none else
  let cmd := stream.take 4
  let rest := stream.drop 4
  if cmd = [0x01, 0x11, 0x80, 0x05] then
    -- OP_REQ_DEVLIST: a 4-byte status; enqueued with sequence_number 0
    if rest.length < 4 then none else
    some (some ⟨readU32At rest 0, 0, cmd, .ReqDevlist, []⟩, rest.drop 4)
  else if cmd = [0x01, 0x11, 0x80, 0x03] then
    -- OP_REQ_IMPORT: a 4-byte status then the 32-byte bus id; sequence_number 0
    if rest.length < 36 then none else
    some (some ⟨readU32At rest 0, 0, cmd, .ReqImport, (rest.drop 4).take 32⟩,
          rest.drop 36)
  else if cmd = [0x00, 0x00, 0x00, 0x01] then
    -- USBIP_CMD_SUBMIT: seq, a 40-byte header, then — with no check of the
    -- direction field — exactly transfer_buffer_length payload bytes.
    if rest.length < 44 then none else
    let seq := readU32At rest 0
    let data40 := (rest.drop 4).take 40
    let tbl := readU32At data40 16
    if rest.length < 44 + tbl then none else
    some (some ⟨0, seq, cmd, .CmdSubmit, data40 ++ (rest.drop 44).take tbl⟩,
          rest.drop (44 + tbl))
  else if cmd = [0x00, 0x00, 0x00, 0x02] then
    -- USBIP_CMD_UNLINK: seq, 16 bytes of fields, 24 bytes of padding
    if rest.length < 44 then none else
    some (some ⟨0, readU32At rest 0, cmd, .CmdUnlink, (rest.drop 4).take 16⟩,
          rest.drop 44)
  else
    -- unknown command word: logged, stream continues after the 4 bytes
    some (none, rest)

/-! ## Writer (`socket.rs`, `writer`) -/

/-- `ECONNRESET` (`libc`, Linux). -/
def ECONNRESET : Int := 104

/-- The unlink filter predicate of the writer's scan. -/
def isUnlink (p : UsbIpPacket) : Bool :=
  decide (p.enum_command = UsbIpCommand.CmdUnlink)

/-- Remove the first packet whose sequence number is `s`
(`queue.iter_mut().position(|pkt| pkt.sequence_number == s)` followed by
`queue.remove(position)`; no removal when there is no match). -/
def removeFirstSeq (s : Nat) : List UsbIpPacket → List UsbIpPacket
  | [] => []
  | p :: rest =>
    if p.sequence_number = s then rest else p :: removeFirstSeq s rest

/-- The abort causes of a writer iteration: each corresponds to a panic or
to an error returned from the task (either way the writer terminates and
the connection is torn down). -/
inductive WriterAbort where
  /-- the unconditional `queue.remove(0)` on a queue that is empty by then -/
  | emptyRemovePanic
  /-- `assert_eq!(bus_id.len(), 32)` -/
  | busIdAssertFailed
  /-- `panic!("Did not expect unlink in packet reader.")` -/
  | unlinkInQueuePanic
  /-- a `?`-propagated cursor read error on malformed packet data -/
  | shortDataError
  /-- `current_import_device.unwrap()` with no imported device -/
  | noImportPanic
  /-- `device.find_ep(..).unwrap()` on an unknown endpoint address -/
  | endpointNotFound
  /-- the `?` on `device.handle_urb(..)` propagating a handler error -/
  | handlerPropagated
deriving DecidableEq

/-- A response frame emitted by the writer, recorded structurally; its
bytes are produced by `eventBytes`. -/
inductive WriterEvent where
  | retUnlink (seq devId direction ep : Nat) (status : Int)
  | repDevlist (devices : List UsbDevice)
  | repImport (matched : Option UsbDevice)
  | retSubmit (seq devId direction ep : Nat) (setup resp : List Nat)
deriving DecidableEq

/-- The exact bytes each response frame puts on the socket (the sequence
of `write_u32`/`write_i32`/`write_all` calls of `writer`). -/
def eventBytes : WriterEvent → List Nat
  | .retUnlink seq devId direction ep status =>
    be32 0x4 ++ be32 seq ++ be32 devId ++ be32 direction ++ be32 ep ++
    beI32 status ++ List.replicate 24 0
  | .repDevlist devices =>
    be32 0x01110005 ++ be32 0 ++ be32 devices.length ++
    (devices.map write_dev_with_interfaces).flatten
  | .repImport matched =>
    be32 0x01110003 ++
    (match matched with
     | some d => be32 0 ++ write_dev d
     | none => be32 1)
  | .retSubmit seq devId direction ep setup resp =>
    be32 0x3 ++ be32 seq ++ be32 devId ++ be32 direction ++ be32 ep ++
    be32 0 ++ be32 resp.length ++ be32 0 ++ be32 0 ++ be32 0 ++
    setup ++ resp

/-- Is an event a `USBIP_RET_SUBMIT` for sequence number `s`? -/
def WriterEvent.isRetSubmitFor (s : Nat) : WriterEvent → Bool
  | .retSubmit seq _ _ _ _ _ => decide (seq = s)
  | _ => false

/-- Processing of one `CMD_UNLINK` from the scan snapshot against the
current queue (`writer`, the `for usubmit_pkt in usubmit_items` body):
parse dev_id, direction, ep and the target sequence number from the
packet data; remove the first packet whose sequence number equals the
target, setting status `-ECONNRESET` exactly when one was found; then
remove the first packet carrying the unlink's own sequence number; emit
the `USBIP_RET_UNLINK` frame. -/
def processUnlink (u : UsbIpPacket) (q : List UsbIpPacket) :
    List UsbIpPacket × WriterEvent :=
  let devId := readU32At u.data 0
  let direction := readU32At u.data 4
  let ep := readU32At u.data 8
  let target := readU32At u.data 12
  let found := q.any (fun p => decide (p.sequence_number = target))
  let status : Int := if found then -ECONNRESET else 0
  let q1 := if found then removeFirstSeq target q else q
  let q2 := removeFirstSeq u.sequence_number q1
  (q2, .retUnlink u.sequence_number devId direction ep status)

/-- The writer's unlink scan: snapshot every queued `CmdUnlink`, then
process each in order against the evolving queue, collecting the emitted
`USBIP_RET_UNLINK` frames. -/
def unlinkScan (queue : List UsbIpPacket) :
    List UsbIpPacket × List WriterEvent :=
  (queue.filter isUnlink).foldl
    (fun acc u =>
      let r := processUnlink u acc.1
      (r.1, acc.2 ++ [r.2]))
    (queue, [])

/-- The handler seam: `device.handle_urb(usb_ep, intf, setup, request)`
of the missing `device.rs`, abstracted as a function of the device, the
resolved endpoint, its owning interface, the 8 setup bytes and the
request payload, returning either the response payload or an error. -/
abbrev HandleUrb :=
  UsbDevice → UsbEndpoint → Option UsbInterface → List Nat → List Nat →
  Except Unit (List Nat)

/-- Processing of a popped `CmdSubmit` (`writer`, the `CmdSubmit` arm):
parse the header fields from the packet data, re-read the 8 setup bytes
and the payload, unwrap the imported device, resolve the endpoint
address (OR-ing in the direction bit for IN, truncated to `u8`), invoke
the handler, and on success build the `USBIP_RET_SUBMIT` with status 0
and `actual_length = resp.len()`.  A handler error is propagated by `?`
(aborting the writer); a failed unwrap panics. -/
def processSubmit (h : HandleUrb) (imp : Option UsbDevice)
    (pkt : UsbIpPacket) : Except WriterAbort WriterEvent :=
  let data := pkt.data
  let devId := readU32At data 0
  let direction := readU32At data 4
  let ep := readU32At data 8
  let tbl := readU32At data 16
  if data.length < 40 then .error .shortDataError else
  let setup := (data.drop 32).take 8
  if data.length < 40 + tbl then .error .shortDataError else
  let request := (data.drop 40).take tbl
  match imp with
  | none => .error .noImportPanic
  | some device =>
    let realEp := (if direction = 0 then ep else ep.lor 0x80) % 256
    match find_ep device realEp with
    | none => .error .endpointNotFound
    | some (usbEp, intf) =>
      match h device usbEp intf setup request with
      | .error _ => .error .handlerPropagated
      | .ok resp =>
        .ok (.retSubmit pkt.sequence_number devId direction ep setup resp)

/-- Processing of the popped head packet (`writer`, the
`match current_pkt.enum_command` block), returning the possibly updated
imported device and the emitted frames, or the abort cause.  On
`ReqImport` the imported device is reset and set to the first server
device whose bus id, resized to 32 bytes with zero fill, equals the
32-byte request data. -/
def processPacket (h : HandleUrb) (server : List UsbDevice)
    (imp : Option UsbDevice) (pkt : UsbIpPacket) :
    Except WriterAbort (Option UsbDevice × List WriterEvent) :=
  match pkt.enum_command with
  | .ReqDevlist => .ok (imp, [.repDevlist server])
  | .ReqImport =>
    if pkt.data.length = 32 then
      let matched := server.find? (fun d =>
        decide (resizeTo 32 d.bus_id = pkt.data))
      .ok (matched, [.repImport matched])
    else .error .busIdAssertFailed
  | .CmdSubmit =>
    match processSubmit h imp pkt with
    | .error a => .error a
    | .ok ev => .ok (imp, [ev])
  | .CmdUnlink => .error .unlinkInQueuePanic

/-- The writer's per-connection mutable state. -/
structure WriterState where
  queue : List UsbIpPacket
  currentImport : Option UsbDevice
  goToSleep : Nat
deriving DecidableEq

/-- The outcome of one writer iteration: either the state for the next
iteration or an abort terminating the task. -/
inductive WriterOutcome where
  | next (st : WriterState)
  | abort (a : WriterAbort)
deriving DecidableEq

/-- One iteration of the writer loop (`writer`, lines 116-283 of
`socket.rs`): run the unlink scan; pop the head packet when the queue is
non-empty (otherwise bump the idle counter); then execute the
unconditional `queue.remove(0)`, which panics whenever the queue is
empty at that point — that is, whenever fewer than two packets survived
the scan — and otherwise silently discards the new head; finally process
the popped packet.  The returned events are the frames actually written
before the iteration ends (the unlink responses are written during the
scan, so they are emitted even on a later abort). -/
def writerIteration (h : HandleUrb) (server : List UsbDevice)
    (st : WriterState) : List WriterEvent × WriterOutcome :=
  match (unlinkScan st.queue).1 with
  | [] =>
    -- go_to_sleep is incremented, then `queue.remove(0)` panics
    ((unlinkScan st.queue).2, .abort .emptyRemovePanic)
  | [_] =>
    -- the single packet is popped into current_pkt, then
    -- `queue.remove(0)` panics before the packet is processed
    ((unlinkScan st.queue).2, .abort .emptyRemovePanic)
  | p :: _ :: rest =>
    -- head popped, second packet silently removed by `queue.remove(0)`
    match processPacket h server st.currentImport p with
    | .error a => ((unlinkScan st.queue).2, .abort a)
    | .ok r => ((unlinkScan st.queue).2 ++ r.2, .next ⟨rest, r.1, 0⟩)

/-! ## Descriptor verifier (`util.rs`, `verify_descriptor`) -/

/-- One step of the length-byte walk: `offset += desc[offset]`. -/
def vdStep (desc : List Nat) (off : Nat) : Nat :=
  off + desc.getD off 0

/-- The `while offset < desc.len()` loop with explicit fuel: `none` means
the fuel ran out with the loop still running, `some off` is the offset at
loop exit. -/
def vdRun (desc : List Nat) : Nat → Nat → Option Nat
  | 0, off => if off < desc.length then none else some off
  | fuel + 1, off =>
    if off < desc.length then vdRun desc fuel (vdStep desc off)
    else some off

/-- The offsets the walk visits, starting from 0. -/
inductive VdReaches (desc : List Nat) : Nat → Prop
  | refl : VdReaches desc 0
  | step {i : Nat} : VdReaches desc i → i < desc.length →
      VdReaches desc (vdStep desc i)

/-- `verify_descriptor` with fuel: `none` = the loop was still running,
`some true` = the `assert_eq!(offset, desc.len())` succeeded,
`some false` = the assertion panicked. -/
def verify_descriptor (desc : List Nat) (fuel : Nat) : Option Bool :=
  (vdRun desc fuel 0).map (fun off => decide (off = desc.length))

/-- A handler that always answers with an empty payload, used to
instantiate the handler seam in concrete runs. -/
def trivialHandler : HandleUrb := fun _ _ _ _ _ => .ok []

/-- A handler that always fails, used to instantiate the handler seam in
concrete runs exercising the error path. -/
def failingHandler : HandleUrb := fun _ _ _ _ _ => .error ()

/-! ## General lemmas -/

theorem beVal4_lt (l : List Nat) : beVal4 l < 2 ^ 32 := by
  unfold beVal4
  split
  · next a b c d =>
    have ha : a % 256 < 256 := Nat.mod_lt _ (by omega)
    have hb : b % 256 < 256 := Nat.mod_lt _ (by omega)
    have hc : c % 256 < 256 := Nat.mod_lt _ (by omega)
    have hd : d % 256 < 256 := Nat.mod_lt _ (by omega)
    omega
  · omega

theorem readU32At_lt (l : List Nat) (off : Nat) : readU32At l off < 2 ^ 32 :=
  beVal4_lt _

theorem beVal4_be32 (x : Nat) : beVal4 (be32 x) = x % 2 ^ 32 := by
  simp only [be32, beVal4]
  omega

/-! ## Layout of the USBIP_RET_SUBMIT frame -/

/-- Field layout of the `USBIP_RET_SUBMIT` byte frame: command word 3,
then seq, dev_id, direction, ep, status 0, actual_length = payload
length, start_frame 0, number_of_packets 0, error_count 0, the 8 echoed
setup bytes, then the payload. -/
theorem eventBytes_retSubmit_layout (seq devId dir ep : Nat)
    (setup resp : List Nat) (hs : setup.length = 8) :
    (eventBytes (.retSubmit seq devId dir ep setup resp)).take 4 =
      [0, 0, 0, 3] ∧
    readU32At (eventBytes (.retSubmit seq devId dir ep setup resp)) 4 =
      seq % 2 ^ 32 ∧
    readU32At (eventBytes (.retSubmit seq devId dir ep setup resp)) 8 =
      devId % 2 ^ 32 ∧
    readU32At (eventBytes (.retSubmit seq devId dir ep setup resp)) 12 =
      dir % 2 ^ 32 ∧
    readU32At (eventBytes (.retSubmit seq devId dir ep setup resp)) 16 =
      ep % 2 ^ 32 ∧
    readU32At (eventBytes (.retSubmit seq devId dir ep setup resp)) 20 = 0 ∧
    readU32At (eventBytes (.retSubmit seq devId dir ep setup resp)) 24 =
      resp.length % 2 ^ 32 ∧
    readU32At (eventBytes (.retSubmit seq devId dir ep setup resp)) 28 = 0 ∧
    readU32At (eventBytes (.retSubmit seq devId dir ep setup resp)) 32 = 0 ∧
    readU32At (eventBytes (.retSubmit seq devId dir ep setup resp)) 36 = 0 ∧
    ((eventBytes (.retSubmit seq devId dir ep setup resp)).drop 40).take 8 =
      setup ∧
    (eventBytes (.retSubmit seq devId dir ep setup resp)).drop 48 = resp := by
  refine ⟨rfl, ?_, ?_, ?_, ?_, rfl, ?_, rfl, rfl, rfl, ?_, ?_⟩
  · exact (show readU32At (eventBytes (.retSubmit seq devId dir ep setup resp)) 4 =
      beVal4 (be32 seq) from rfl).trans (beVal4_be32 seq)
  · exact (show readU32At (eventBytes (.retSubmit seq devId dir ep setup resp)) 8 =
      beVal4 (be32 devId) from rfl).trans (beVal4_be32 devId)
  · exact (show readU32At (eventBytes (.retSubmit seq devId dir ep setup resp)) 12 =
      beVal4 (be32 dir) from rfl).trans (beVal4_be32 dir)
  · exact (show readU32At (eventBytes (.retSubmit seq devId dir ep setup resp)) 16 =
      beVal4 (be32 ep) from rfl).trans (beVal4_be32 ep)
  · exact (show readU32At (eventBytes (.retSubmit seq devId dir ep setup resp)) 24 =
      beVal4 (be32 resp.length) from rfl).trans (beVal4_be32 resp.length)
  · rw [show (eventBytes (.retSubmit seq devId dir ep setup resp)).drop 40 =
      setup ++ resp from rfl, ← hs]
    exact List.take_left _ _
  · rw [show (eventBytes (.retSubmit seq devId dir ep setup resp)).drop 48 =
      (setup ++ resp).drop 8 from rfl, ← hs]
    exact List.drop_left _ _

theorem mem_removeFirstSeq (s : Nat) (p : UsbIpPacket) :
    ∀ q : List UsbIpPacket, p ∈ removeFirstSeq s q → p ∈ q := by
  intro q
  induction q with
  | nil => simp [removeFirstSeq]
  | cons x t ih =>
    simp only [removeFirstSeq]
    split
    · intro hp
      exact List.mem_cons_of_mem _ hp
    · intro hp
      rcases List.mem_cons.mp hp with h1 | h1
      · exact h1 ▸ List.mem_cons_self _ _
      · exact List.mem_cons_of_mem _ (ih h1)

theorem seq_ne_of_mem_removeFirstSeq (s : Nat) (p : UsbIpPacket) :
    ∀ q : List UsbIpPacket,
    (q.map (fun x => x.sequence_number)).Nodup →
    p ∈ removeFirstSeq s q → p.sequence_number ≠ s := by
  intro q
  induction q with
  | nil => simp [removeFirstSeq]
  | cons x t ih =>
    intro hnd hp
    simp only [List.map_cons, List.nodup_cons] at hnd
    simp only [removeFirstSeq] at hp
    split at hp
    · next hx =>
      -- the head matched and was removed; p is in the tail, whose
      -- sequence numbers all differ from x's (= s)
      intro hps
      exact hnd.1 (hx ▸ hps ▸ List.mem_map_of_mem (fun y => y.sequence_number) hp)
    · next hx =>
      rcases List.mem_cons.mp hp with h1 | h1
      · exact h1 ▸ hx
      · exact ih hnd.2 h1

theorem self_not_mem_removeFirstSeq (p : UsbIpPacket) (q : List UsbIpPacket)
    (hnd : (q.map (fun x => x.sequence_number)).Nodup) :
    p ∉ removeFirstSeq p.sequence_number q := fun hmem =>
  seq_ne_of_mem_removeFirstSeq _ _ q hnd hmem rfl

/-- A successful submit processing emits exactly the `USBIP_RET_SUBMIT`
of the packet's own sequence number and parsed header fields. -/
theorem processSubmit_ok_shape (h : HandleUrb) (imp : Option UsbDevice)
    (pkt : UsbIpPacket) (ev : WriterEvent)
    (hok : processSubmit h imp pkt = .ok ev) :
    ∃ setup resp, ev = .retSubmit pkt.sequence_number (readU32At pkt.data 0)
      (readU32At pkt.data 4) (readU32At pkt.data 8) setup resp := by
  simp only [processSubmit] at hok
  split at hok
  · exact absurd hok (by simp)
  · split at hok
    · exact absurd hok (by simp)
    · split at hok
      · exact absurd hok (by simp)
      · split at hok
        · exact absurd hok (by simp)
        · split at hok
          · exact absurd hok (by simp)
          · exact ⟨_, _, (Except.ok.inj hok).symm⟩

/-- Any `USBIP_RET_SUBMIT` frame produced by processing a packet carries
that packet's sequence number. -/
theorem processPacket_retSubmit_seq (h : HandleUrb) (server : List UsbDevice)
    (imp : Option UsbDevice) (pkt : UsbIpPacket) (imp2 : Option UsbDevice)
    (evs : List WriterEvent) (s : Nat)
    (hok : processPacket h server imp pkt = .ok (imp2, evs)) :
    ∀ e ∈ evs, e.isRetSubmitFor s = true → pkt.sequence_number = s := by
  unfold processPacket at hok
  split at hok
  · -- ReqDevlist
    intro e he
    have hevs : evs = [.repDevlist server] := ((Prod.mk.injEq _ _ _ _).mp (Except.ok.inj hok)).2.symm
    subst hevs
    simp only [List.mem_singleton] at he
    subst he
    simp [WriterEvent.isRetSubmitFor]
  · -- ReqImport
    split at hok
    · intro e he
      have hevs := ((Prod.mk.injEq _ _ _ _).mp (Except.ok.inj hok)).2.symm
      subst hevs
      simp only [List.mem_singleton] at he
      subst he
      simp [WriterEvent.isRetSubmitFor]
    · exact absurd hok (by simp)
  · -- CmdSubmit
    cases hev : processSubmit h imp pkt with
    | error a => rw [hev] at hok; exact absurd hok (by simp)
    | ok ev =>
      rw [hev] at hok
      intro e he
      have hevs := ((Prod.mk.injEq _ _ _ _).mp (Except.ok.inj hok)).2.symm
      subst hevs
      simp only [List.mem_singleton] at he
      subst he
      obtain ⟨setup, resp, hshape⟩ := processSubmit_ok_shape h imp pkt _ hev
      subst hshape
      simp only [WriterEvent.isRetSubmitFor, decide_eq_true_eq]
      exact fun hs => hs
  · -- CmdUnlink
    exact absurd hok (by simp)

/-- A queue holding exactly one unlink makes the scan a single
`processUnlink` call. -/
theorem unlinkScan_single (queue : List UsbIpPacket) (u : UsbIpPacket)
    (hu : queue.filter isUnlink = [u]) :
    unlinkScan queue =
      ((processUnlink u queue).1, [(processUnlink u queue).2]) := by
  unfold unlinkScan
  rw [hu]
  rfl

/-- `processUnlink` when some queued packet carries the target sequence
number: the first such packet is removed, the status is `-ECONNRESET`. -/
theorem processUnlink_found (u : UsbIpPacket) (q : List UsbIpPacket)
    (hfound : (q.any fun p =>
      decide (p.sequence_number = readU32At u.data 12)) = true) :
    processUnlink u q =
      (removeFirstSeq u.sequence_number
         (removeFirstSeq (readU32At u.data 12) q),
       .retUnlink u.sequence_number (readU32At u.data 0) (readU32At u.data 4)
         (readU32At u.data 8) (-ECONNRESET)) := by
  simp only [processUnlink, hfound, if_true]

/-- `processUnlink` when no queued packet carries the target sequence
number: only the unlink itself is removed and the status is 0. -/
theorem processUnlink_notFound (u : UsbIpPacket) (q : List UsbIpPacket)
    (hfound : (q.any fun p =>
      decide (p.sequence_number = readU32At u.data 12)) = false) :
    processUnlink u q =
      (removeFirstSeq u.sequence_number q,
       .retUnlink u.sequence_number (readU32At u.data 0) (readU32At u.data 4)
         (readU32At u.data 8) 0) := by
  simp [processUnlink, hfound]

/-- Structure of one writer iteration: the emitted frames are the scan's
unlink responses followed by the frames of the processed head packet (if
any), and a continuation state's queue is the post-scan queue minus its
first two entries. -/
theorem writerIteration_shape (h : HandleUrb) (server : List UsbDevice)
    (st : WriterState) :
    (∃ evs2, (writerIteration h server st).1 = (unlinkScan st.queue).2 ++ evs2 ∧
      (evs2 = [] ∨ ∃ p second rest imp,
        (unlinkScan st.queue).1 = p :: second :: rest ∧
        processPacket h server st.currentImport p = .ok (imp, evs2))) ∧
    (∀ st2, (writerIteration h server st).2 = .next st2 →
      ∃ p second, (unlinkScan st.queue).1 = p :: second :: st2.queue) := by
  rcases hq : (unlinkScan st.queue).1 with _ | ⟨p, _ | ⟨second, rest⟩⟩
  · have hit : writerIteration h server st =
        ((unlinkScan st.queue).2, .abort .emptyRemovePanic) := by
      unfold writerIteration
      rw [hq]
    rw [hit]
    exact ⟨⟨[], by simp, Or.inl rfl⟩, fun st2 hc => by cases hc⟩
  · have hit : writerIteration h server st =
        ((unlinkScan st.queue).2, .abort .emptyRemovePanic) := by
      unfold writerIteration
      rw [hq]
    rw [hit]
    exact ⟨⟨[], by simp, Or.inl rfl⟩, fun st2 hc => by cases hc⟩
  · have hstep : writerIteration h server st =
        match processPacket h server st.currentImport p with
        | .error a => ((unlinkScan st.queue).2, .abort a)
        | .ok r => ((unlinkScan st.queue).2 ++ r.2, .next ⟨rest, r.1, 0⟩) := by
      unfold writerIteration
      rw [hq]
    cases hp : processPacket h server st.currentImport p with
    | error a =>
      rw [hp] at hstep
      rw [hstep]
      exact ⟨⟨[], by simp, Or.inl rfl⟩, fun st2 hc => by cases hc⟩
    | ok r =>
      rw [hp] at hstep
      rw [hstep]
      refine ⟨⟨r.2, rfl, Or.inr ⟨p, second, rest, r.1, rfl, by rw [hp]⟩⟩, ?_⟩
      intro st2 hc
      cases hc
      exact ⟨p, second, rfl⟩

/-! ## C1: empty queue after the unlink scan -/

/-- **C1.** The claim states that a writer iteration that finds the queue
empty after the unlink scan completes without aborting (idle counter,
sleep, re-poll).  On the code, the unconditional `queue.remove(0)` at
line 172 of `socket.rs` panics on the empty queue, aborting the writer
task: the iteration emits the unlink responses of the scan and then
aborts with the panic. -/
theorem c1_empty_queue_panics (h : HandleUrb) (server : List UsbDevice)
    (st : WriterState) (hscan : (unlinkScan st.queue).1 = []) :
    writerIteration h server st =
      ((unlinkScan st.queue).2, .abort .emptyRemovePanic) := by
  unfold writerIteration
  rw [hscan]

/-- Witness for C1 at the concrete input of an empty queue. -/
theorem c1_empty_queue_panics_witness :
    (unlinkScan ([] : List UsbIpPacket)).1 = [] ∧
    writerIteration trivialHandler [] ⟨[], none, 0⟩ =
      ((unlinkScan ([] : List UsbIpPacket)).2, .abort .emptyRemovePanic) :=
  ⟨rfl, c1_empty_queue_panics trivialHandler [] ⟨[], none, 0⟩ rfl⟩

/-! ## C3: a second queued packet is silently dropped -/

/-- **C3.** On every writer iteration in which at least two packets
survive the unlink scan, the head packet is popped and processed, and the
unconditional `queue.remove(0)` additionally discards the next packet
without processing it: the continuation queue is the tail after both
removals (`rest`), and the only frames emitted besides the scan's unlink
responses are those of the head packet, so the second packet never
produces any response. -/
theorem c3_second_packet_silently_dropped (h : HandleUrb)
    (server : List UsbDevice) (st : WriterState) (p second : UsbIpPacket)
    (rest : List UsbIpPacket)
    (hscan : (unlinkScan st.queue).1 = p :: second :: rest) :
    (∀ imp evs, processPacket h server st.currentImport p = .ok (imp, evs) →
      writerIteration h server st =
        ((unlinkScan st.queue).2 ++ evs, .next ⟨rest, imp, 0⟩))
    ∧ (∀ a, processPacket h server st.currentImport p = .error a →
      writerIteration h server st = ((unlinkScan st.queue).2, .abort a)) := by
  have hstep : writerIteration h server st =
      match processPacket h server st.currentImport p with
      | .error a => ((unlinkScan st.queue).2, .abort a)
      | .ok r => ((unlinkScan st.queue).2 ++ r.2, .next ⟨rest, r.1, 0⟩) := by
    unfold writerIteration
    rw [hscan]
  constructor
  · intro imp evs hp
    rw [hstep, hp]
  · intro a hp
    rw [hstep, hp]

/-- A concrete `OP_REQ_DEVLIST` work item. -/
def pktDevlist : UsbIpPacket :=
  ⟨0, 0, [0x01, 0x11, 0x80, 0x05], .ReqDevlist, []⟩

/-! ## C2: unlink cancellation -/

/-- **C2.** For a `CmdUnlink` processed by the writer's scan (stated for a
queue holding exactly that one unlink, with pairwise distinct sequence
numbers): when some queued packet carries the unlink's target sequence
number, the emitted `USBIP_RET_UNLINK` has status `-ECONNRESET`, no frame
of the iteration is a `USBIP_RET_SUBMIT` for the target, and no packet
with the target sequence number survives into the continuation queue —
the cancelled SUBMIT is gone before any handler sees it and can never
produce a response.  When no queued packet matches, the status is 0. -/
theorem c2_unlink_cancels_queued_target (h : HandleUrb)
    (server : List UsbDevice) (st : WriterState) (u : UsbIpPacket)
    (hu : st.queue.filter isUnlink = [u])
    (hnd : (st.queue.map (fun x => x.sequence_number)).Nodup) :
    ((∃ p ∈ st.queue, p.sequence_number = readU32At u.data 12) →
      WriterEvent.retUnlink u.sequence_number (readU32At u.data 0)
          (readU32At u.data 4) (readU32At u.data 8) (-ECONNRESET) ∈
        (writerIteration h server st).1 ∧
      (∀ e ∈ (writerIteration h server st).1,
        e.isRetSubmitFor (readU32At u.data 12) = false) ∧
      (∀ st2, (writerIteration h server st).2 = .next st2 →
        ∀ p ∈ st2.queue, p.sequence_number ≠ readU32At u.data 12))
    ∧ ((¬ ∃ p ∈ st.queue, p.sequence_number = readU32At u.data 12) →
      WriterEvent.retUnlink u.sequence_number (readU32At u.data 0)
          (readU32At u.data 4) (readU32At u.data 8) 0 ∈
        (writerIteration h server st).1) := by
  obtain ⟨⟨evs2, hev1, hev2⟩, hnext⟩ := writerIteration_shape h server st
  constructor
  · rintro ⟨p0, hp0mem, hp0seq⟩
    have hfound : (st.queue.any fun p =>
        decide (p.sequence_number = readU32At u.data 12)) = true := by
      rw [List.any_eq_true]
      exact ⟨p0, hp0mem, by simp [hp0seq]⟩
    have hscan := unlinkScan_single st.queue u hu
    rw [processUnlink_found u st.queue hfound] at hscan
    refine ⟨?_, ?_, ?_⟩
    · rw [hev1, hscan]
      exact List.mem_append_left _ (List.mem_singleton_self _)
    · intro e he
      rw [hev1, hscan] at he
      rcases List.mem_append.mp he with h1 | h1
      · have : e = WriterEvent.retUnlink u.sequence_number
            (readU32At u.data 0) (readU32At u.data 4) (readU32At u.data 8)
            (-ECONNRESET) := List.mem_singleton.mp h1
        subst this
        rfl
      · rcases hev2 with rfl | ⟨p, second, rest, imp, hq, hpp⟩
        · cases h1
        · cases hb : e.isRetSubmitFor (readU32At u.data 12) with
          | false => rfl
          | true =>
            exfalso
            have hpseq := processPacket_retSubmit_seq h server
              st.currentImport p imp evs2 _ hpp e h1 hb
            have hpmem : p ∈ (unlinkScan st.queue).1 := by
              rw [hq]
              exact List.mem_cons_self _ _
            rw [hscan] at hpmem
            exact seq_ne_of_mem_removeFirstSeq _ _ st.queue hnd
              (mem_removeFirstSeq _ _ _ hpmem) hpseq
    · intro st2 hst2 p hpq
      obtain ⟨ph, ps, hq⟩ := hnext st2 hst2
      have hpmem : p ∈ (unlinkScan st.queue).1 := by
        rw [hq]
        exact List.mem_cons_of_mem _ (List.mem_cons_of_mem _ hpq)
      rw [hscan] at hpmem
      exact seq_ne_of_mem_removeFirstSeq _ _ st.queue hnd
        (mem_removeFirstSeq _ _ _ hpmem)
  · intro hnone
    have hfound : (st.queue.any fun p =>
        decide (p.sequence_number = readU32At u.data 12)) = false := by
      rw [List.any_eq_false]
      intro p hp
      simp only [decide_eq_true_eq]
      exact fun hs => hnone ⟨p, hp, hs⟩
    have hscan := unlinkScan_single st.queue u hu
    rw [processUnlink_notFound u st.queue hfound] at hscan
    rw [hev1, hscan]
    exact List.mem_append_left _ (List.mem_singleton_self _)

/-- A concrete queued `CMD_SUBMIT` with sequence number 42. -/
def pktSubmit42 : UsbIpPacket :=
  ⟨0, 42, [0x00, 0x00, 0x00, 0x01], .CmdSubmit, List.replicate 40 0⟩

/-- A concrete `CMD_UNLINK` with sequence number 43 targeting 42. -/
def pktUnlink43 : UsbIpPacket :=
  ⟨0, 43, [0x00, 0x00, 0x00, 0x02], .CmdUnlink,
   be32 0 ++ be32 0 ++ be32 0 ++ be32 42⟩

/-- Witness for C2: a queued SUBMIT (seq 42) and an UNLINK (seq 43)
targeting it; the unlink response carries `-ECONNRESET`. -/
theorem c2_unlink_cancels_queued_target_witness :
    ([pktSubmit42, pktUnlink43].filter isUnlink = [pktUnlink43]) ∧
    (([pktSubmit42, pktUnlink43].map
      (fun x => x.sequence_number)).Nodup) ∧
    (∃ p ∈ [pktSubmit42, pktUnlink43],
      p.sequence_number = readU32At pktUnlink43.data 12) ∧
    WriterEvent.retUnlink 43 0 0 0 (-ECONNRESET) ∈
      (writerIteration trivialHandler []
        ⟨[pktSubmit42, pktUnlink43], none, 0⟩).1 :=
  ⟨by decide, by decide, ⟨pktSubmit42, by decide⟩,
    ((c2_unlink_cancels_queued_target trivialHandler []
        ⟨[pktSubmit42, pktUnlink43], none, 0⟩ pktUnlink43
        (by decide) (by decide)).1
      ⟨pktSubmit42, by decide⟩).1⟩

/-! ## C9: control-plane packets have sequence number 0 and can be
unlinked by a seq-0 target -/

/-- **C9.** The reader enqueues `ReqDevlist` and `ReqImport` work items
with sequence number 0, and the writer's unlink scan matches by sequence
number alone: a `CmdUnlink` whose target is 0, processed (as the only
queued unlink, sequence numbers pairwise distinct) while such a
control-plane packet is queued, removes that packet — it survives
neither the scan nor into the continuation queue, so it never gets a
response — and reports status `-ECONNRESET`. -/
theorem c9_unlink_seq_zero_removes_control_packet :
    (∀ stream pkt rest, readerStep stream = some (some pkt, rest) →
      (pkt.enum_command = .ReqDevlist ∨ pkt.enum_command = .ReqImport) →
      pkt.sequence_number = 0)
    ∧ (∀ (h : HandleUrb) (server : List UsbDevice) (st : WriterState)
        (u ctrl : UsbIpPacket),
      st.queue.filter isUnlink = [u] →
      (st.queue.map (fun x => x.sequence_number)).Nodup →
      readU32At u.data 12 = 0 →
      ctrl ∈ st.queue →
      (ctrl.enum_command = .ReqDevlist ∨ ctrl.enum_command = .ReqImport) →
      ctrl.sequence_number = 0 →
      WriterEvent.retUnlink u.sequence_number (readU32At u.data 0)
          (readU32At u.data 4) (readU32At u.data 8) (-ECONNRESET) ∈
        (writerIteration h server st).1 ∧
      ctrl ∉ (unlinkScan st.queue).1 ∧
      (∀ st2, (writerIteration h server st).2 = .next st2 →
        ctrl ∉ st2.queue)) := by
  constructor
  · intro stream pkt rest hstep henum
    unfold readerStep at hstep
    split at hstep
    · cases hstep
    · simp only [] at hstep
      split at hstep
      · split at hstep
        · cases hstep
        · simp only [Option.some.injEq, Prod.mk.injEq] at hstep
          rw [← hstep.1]
      · split at hstep
        · split at hstep
          · cases hstep
          · simp only [Option.some.injEq, Prod.mk.injEq] at hstep
            rw [← hstep.1]
        · split at hstep
          · split at hstep
            · cases hstep
            · split at hstep
              · cases hstep
              · simp only [Option.some.injEq, Prod.mk.injEq] at hstep
                rw [← hstep.1] at henum
                simp at henum
          · split at hstep
            · split at hstep
              · cases hstep
              · simp only [Option.some.injEq, Prod.mk.injEq] at hstep
                rw [← hstep.1] at henum
                simp at henum
            · simp only [Option.some.injEq, Prod.mk.injEq] at hstep
              exact absurd hstep.1 (by simp)
  · intro h server st u ctrl hu hnd htgt hmem henum hseq
    obtain ⟨⟨evs2, hev1, hev2⟩, hnext⟩ := writerIteration_shape h server st
    have hfound : (st.queue.any fun p =>
        decide (p.sequence_number = readU32At u.data 12)) = true := by
      rw [List.any_eq_true]
      exact ⟨ctrl, hmem, by simp [hseq, htgt]⟩
    have hscan := unlinkScan_single st.queue u hu
    rw [processUnlink_found u st.queue hfound] at hscan
    have hctrl : ctrl ∉ removeFirstSeq (readU32At u.data 12) st.queue := by
      rw [htgt, ← hseq]
      exact self_not_mem_removeFirstSeq ctrl st.queue hnd
    refine ⟨?_, ?_, ?_⟩
    · rw [hev1, hscan]
      exact List.mem_append_left _ (List.mem_singleton_self _)
    · rw [hscan]
      intro hc
      exact hctrl (mem_removeFirstSeq _ _ _ hc)
    · intro st2 hst2 hc
      obtain ⟨ph, ps, hq⟩ := hnext st2 hst2
      have : ctrl ∈ (unlinkScan st.queue).1 := by
        rw [hq]
        exact List.mem_cons_of_mem _ (List.mem_cons_of_mem _ hc)
      rw [hscan] at this
      exact hctrl (mem_removeFirstSeq _ _ _ this)

/-- A concrete `CMD_UNLINK` with sequence number 5 targeting 0. -/
def pktUnlinkT0 : UsbIpPacket :=
  ⟨0, 5, [0x00, 0x00, 0x00, 0x02], .CmdUnlink, List.replicate 16 0⟩

/-- Witness for C9: parsing a devlist request yields sequence number 0,
and a target-0 unlink removes a queued devlist packet with status
`-ECONNRESET`. -/
theorem c9_unlink_seq_zero_removes_control_packet_witness :
    (readerStep [0x01, 0x11, 0x80, 0x05, 0, 0, 0, 0] =
      some (some ⟨0, 0, [0x01, 0x11, 0x80, 0x05], .ReqDevlist, []⟩, []) ∧
      (⟨0, 0, [0x01, 0x11, 0x80, 0x05], .ReqDevlist, []⟩ :
        UsbIpPacket).sequence_number = 0) ∧
    (WriterEvent.retUnlink 5 0 0 0 (-ECONNRESET) ∈
      (writerIteration trivialHandler []
        ⟨[pktDevlist, pktUnlinkT0], none, 0⟩).1 ∧
     pktDevlist ∉ (unlinkScan [pktDevlist, pktUnlinkT0]).1) :=
  ⟨⟨by decide,
    c9_unlink_seq_zero_removes_control_packet.1
      [0x01, 0x11, 0x80, 0x05, 0, 0, 0, 0]
      ⟨0, 0, [0x01, 0x11, 0x80, 0x05], .ReqDevlist, []⟩ [] (by decide)
      (Or.inl rfl)⟩,
   ⟨(c9_unlink_seq_zero_removes_control_packet.2 trivialHandler []
      ⟨[pktDevlist, pktUnlinkT0], none, 0⟩ pktUnlinkT0 pktDevlist
      (by decide) (by decide) (by decide) (by decide) (Or.inl rfl)
      rfl).1,
    (c9_unlink_seq_zero_removes_control_packet.2 trivialHandler []
      ⟨[pktDevlist, pktUnlinkT0], none, 0⟩ pktUnlinkT0 pktDevlist
      (by decide) (by decide) (by decide) (by decide) (Or.inl rfl)
      rfl).2.1⟩⟩

/-- A concrete second work item (a submit that is never processed). -/
def pktDropped : UsbIpPacket :=
  ⟨0, 7, [0x00, 0x00, 0x00, 0x01], .CmdSubmit, List.replicate 40 0⟩

/-- Witness for C3: with the two packets above queued, the writer answers
the devlist request and the second packet vanishes without a response. -/
theorem c3_second_packet_silently_dropped_witness :
    (unlinkScan [pktDevlist, pktDropped]).1 = [pktDevlist, pktDropped] ∧
    processPacket trivialHandler [] none pktDevlist =
      .ok (none, [.repDevlist []]) ∧
    writerIteration trivialHandler [] ⟨[pktDevlist, pktDropped], none, 0⟩ =
      ((unlinkScan [pktDevlist, pktDropped]).2 ++ [.repDevlist []],
       .next ⟨[], none, 0⟩) :=
  ⟨rfl, rfl,
    (c3_second_packet_silently_dropped trivialHandler [] ⟨[pktDevlist, pktDropped], none, 0⟩
      pktDevlist pktDropped [] rfl).1 none [.repDevlist []] rfl⟩

/-! ## C4: the USBIP_RET_SUBMIT frame -/

/-- **C4.** Every `CmdSubmit` the writer processes to completion (the
head of a post-scan queue of at least two packets, an imported device
present, the endpoint resolved, the handler succeeding) emits — after
the scan's unlink responses — exactly one `USBIP_RET_SUBMIT` whose bytes
begin with command `0x00000003`, echo the request's sequence number,
dev_id, direction, endpoint and 8 setup bytes, carry status 0,
start_frame 0, number_of_packets 0, error_count 0, and have
`actual_length` equal to the byte length of the handler's response
payload, which is appended after the 48-byte header. -/
theorem c4_ret_submit_layout (h : HandleUrb) (server : List UsbDevice)
    (st : WriterState) (p second : UsbIpPacket) (rest : List UsbIpPacket)
    (d : UsbDevice) (e : UsbEndpoint) (i : Option UsbInterface)
    (resp : List Nat)
    (hq : (unlinkScan st.queue).1 = p :: second :: rest)
    (hcmd : p.enum_command = .CmdSubmit)
    (hlen : 40 + readU32At p.data 16 ≤ p.data.length)
    (himp : st.currentImport = some d)
    (hep : find_ep d ((if readU32At p.data 4 = 0 then readU32At p.data 8
      else (readU32At p.data 8).lor 0x80) % 256) = some (e, i))
    (hh : h d e i ((p.data.drop 32).take 8)
      ((p.data.drop 40).take (readU32At p.data 16)) = .ok resp)
    (hseq : p.sequence_number < 2 ^ 32)
    (hresp : resp.length < 2 ^ 32) :
    writerIteration h server st =
      ((unlinkScan st.queue).2 ++
        [WriterEvent.retSubmit p.sequence_number (readU32At p.data 0)
          (readU32At p.data 4) (readU32At p.data 8)
          ((p.data.drop 32).take 8) resp],
       .next ⟨rest, some d, 0⟩) ∧
    (eventBytes (.retSubmit p.sequence_number (readU32At p.data 0)
        (readU32At p.data 4) (readU32At p.data 8)
        ((p.data.drop 32).take 8) resp)).take 4 = [0, 0, 0, 3] ∧
    readU32At (eventBytes (.retSubmit p.sequence_number (readU32At p.data 0)
        (readU32At p.data 4) (readU32At p.data 8)
        ((p.data.drop 32).take 8) resp)) 4 = p.sequence_number ∧
    readU32At (eventBytes (.retSubmit p.sequence_number (readU32At p.data 0)
        (readU32At p.data 4) (readU32At p.data 8)
        ((p.data.drop 32).take 8) resp)) 8 = readU32At p.data 0 ∧
    readU32At (eventBytes (.retSubmit p.sequence_number (readU32At p.data 0)
        (readU32At p.data 4) (readU32At p.data 8)
        ((p.data.drop 32).take 8) resp)) 12 = readU32At p.data 4 ∧
    readU32At (eventBytes (.retSubmit p.sequence_number (readU32At p.data 0)
        (readU32At p.data 4) (readU32At p.data 8)
        ((p.data.drop 32).take 8) resp)) 16 = readU32At p.data 8 ∧
    readU32At (eventBytes (.retSubmit p.sequence_number (readU32At p.data 0)
        (readU32At p.data 4) (readU32At p.data 8)
        ((p.data.drop 32).take 8) resp)) 20 = 0 ∧
    readU32At (eventBytes (.retSubmit p.sequence_number (readU32At p.data 0)
        (readU32At p.data 4) (readU32At p.data 8)
        ((p.data.drop 32).take 8) resp)) 24 = resp.length ∧
    readU32At (eventBytes (.retSubmit p.sequence_number (readU32At p.data 0)
        (readU32At p.data 4) (readU32At p.data 8)
        ((p.data.drop 32).take 8) resp)) 28 = 0 ∧
    readU32At (eventBytes (.retSubmit p.sequence_number (readU32At p.data 0)
        (readU32At p.data 4) (readU32At p.data 8)
        ((p.data.drop 32).take 8) resp)) 32 = 0 ∧
    readU32At (eventBytes (.retSubmit p.sequence_number (readU32At p.data 0)
        (readU32At p.data 4) (readU32At p.data 8)
        ((p.data.drop 32).take 8) resp)) 36 = 0 ∧
    ((eventBytes (.retSubmit p.sequence_number (readU32At p.data 0)
        (readU32At p.data 4) (readU32At p.data 8)
        ((p.data.drop 32).take 8) resp)).drop 40).take 8 =
      (p.data.drop 32).take 8 ∧
    (eventBytes (.retSubmit p.sequence_number (readU32At p.data 0)
        (readU32At p.data 4) (readU32At p.data 8)
        ((p.data.drop 32).take 8) resp)).drop 48 = resp := by
  have hn1 : ¬ (p.data.length < 40) := by omega
  have hn2 : ¬ (p.data.length < 40 + readU32At p.data 16) := by omega
  have hps : processSubmit h (some d) p =
      .ok (.retSubmit p.sequence_number (readU32At p.data 0)
        (readU32At p.data 4) (readU32At p.data 8)
        ((p.data.drop 32).take 8) resp) := by
    simp only [processSubmit, hn1, hn2, hep, hh, if_false]
  have hpp : processPacket h server st.currentImport p =
      .ok (some d, [.retSubmit p.sequence_number (readU32At p.data 0)
        (readU32At p.data 4) (readU32At p.data 8)
        ((p.data.drop 32).take 8) resp]) := by
    rw [himp]
    unfold processPacket
    rw [hcmd, hps]
  have hstep : writerIteration h server st =
      match processPacket h server st.currentImport p with
      | .error a => ((unlinkScan st.queue).2, .abort a)
      | .ok r => ((unlinkScan st.queue).2 ++ r.2, .next ⟨rest, r.1, 0⟩) := by
    unfold writerIteration
    rw [hq]
  rw [hpp] at hstep
  have hs8 : ((p.data.drop 32).take 8).length = 8 := by
    rw [List.length_take, List.length_drop]
    omega
  obtain ⟨l1, l2, l3, l4, l5, l6, l7, l8, l9, l10, l11, l12⟩ :=
    eventBytes_retSubmit_layout p.sequence_number (readU32At p.data 0)
      (readU32At p.data 4) (readU32At p.data 8) ((p.data.drop 32).take 8)
      resp hs8
  refine ⟨hstep.trans rfl, l1, ?_, ?_, ?_, ?_, l6, ?_, l8, l9, l10, l11, l12⟩
  · rw [l2, Nat.mod_eq_of_lt hseq]
  · rw [l3, Nat.mod_eq_of_lt (readU32At_lt _ _)]
  · rw [l4, Nat.mod_eq_of_lt (readU32At_lt _ _)]
  · rw [l5, Nat.mod_eq_of_lt (readU32At_lt _ _)]
  · rw [l7, Nat.mod_eq_of_lt hresp]

/-- A concrete simulated device: bus id `"0"`, EP0 only. -/
def dev0 : UsbDevice :=
  ⟨[0x2f], [0x30], 1, 2, 3, 0x1234, 0x5678, 0, 0, 0, 0x100, 0x200, 1, 1,
   ⟨0x80, 0, 64, 0⟩, ⟨0x00, 0, 64, 0⟩, []⟩

/-- A concrete `CMD_SUBMIT` work item: seq 1, direction IN, endpoint 0,
transfer_buffer_length 0, a GET_DESCRIPTOR(Device) setup. -/
def pktSubmitIn : UsbIpPacket :=
  ⟨0, 1, [0x00, 0x00, 0x00, 0x01], .CmdSubmit,
   be32 0 ++ be32 1 ++ be32 0 ++ be32 0 ++ be32 0 ++ be32 0 ++ be32 0 ++
   be32 0 ++ [0x80, 0x06, 0x00, 0x01, 0x00, 0x00, 0x40, 0x00]⟩

/-- Witness for C4: processing the concrete IN submit against `dev0`
with the trivial handler emits the `USBIP_RET_SUBMIT` for seq 1. -/
theorem c4_ret_submit_layout_witness :
    (unlinkScan [pktSubmitIn, pktDropped]).1 = [pktSubmitIn, pktDropped] ∧
    find_ep dev0 ((if readU32At pktSubmitIn.data 4 = 0 then
      readU32At pktSubmitIn.data 8
      else (readU32At pktSubmitIn.data 8).lor 0x80) % 256) =
      some (⟨0x80, 0, 64, 0⟩, none) ∧
    writerIteration trivialHandler []
        ⟨[pktSubmitIn, pktDropped], some dev0, 0⟩ =
      ([WriterEvent.retSubmit 1 0 1 0
          [0x80, 0x06, 0x00, 0x01, 0x00, 0x00, 0x40, 0x00] []],
       .next ⟨[], some dev0, 0⟩) :=
  ⟨rfl, by decide,
    (c4_ret_submit_layout trivialHandler []
      ⟨[pktSubmitIn, pktDropped], some dev0, 0⟩ pktSubmitIn pktDropped []
      dev0 ⟨0x80, 0, 64, 0⟩ none [] rfl rfl (by decide) rfl (by decide)
      rfl (by decide) (by decide)).1⟩

/-- Every frame emitted by the unlink scan is a `USBIP_RET_UNLINK`,
never a `USBIP_RET_SUBMIT`. -/
theorem unlinkScan_events_not_retSubmit (queue : List UsbIpPacket) :
    ∀ e ∈ (unlinkScan queue).2, ∀ s, e.isRetSubmitFor s = false := by
  unfold unlinkScan
  have haux : ∀ (us : List UsbIpPacket)
      (acc : List UsbIpPacket × List WriterEvent),
      (∀ e ∈ acc.2, ∀ s, e.isRetSubmitFor s = false) →
      ∀ e ∈ (us.foldl (fun acc u =>
        let r := processUnlink u acc.1
        (r.1, acc.2 ++ [r.2])) acc).2,
      ∀ s, e.isRetSubmitFor s = false := by
    intro us
    induction us with
    | nil => intro acc hacc; exact hacc
    | cons u t ih =>
      intro acc hacc
      simp only [List.foldl_cons]
      apply ih
      intro e he s
      rcases List.mem_append.mp he with h1 | h1
      · exact hacc e h1 s
      · have he2 : e = (processUnlink u acc.1).2 := List.mem_singleton.mp h1
        subst he2
        rfl
  exact haux (queue.filter isUnlink) (queue, []) (by intro e he s; cases he)

/-! ## C6: handler errors -/

/-- **C6 (counterexample).** The claim states that a handler error makes
the writer emit an empty `USBIP_RET_SUBMIT` (status 0, actual_length 0)
and continue.  At this concrete input — a well-formed IN submit against
`dev0` with a failing handler — the writer instead emits nothing and
aborts: the `?` on `device.handle_urb(..)` propagates the error out of
the writer task. -/
theorem c6_handler_error_counterexample :
    writerIteration failingHandler []
        ⟨[pktSubmitIn, pktDropped], some dev0, 0⟩ =
      ([], .abort .handlerPropagated) ∧
    ¬ ∃ evs st2, writerIteration failingHandler []
        ⟨[pktSubmitIn, pktDropped], some dev0, 0⟩ = (evs, .next st2) := by
  refine ⟨rfl, ?_⟩
  rintro ⟨evs, st2, hc⟩
  rw [show writerIteration failingHandler []
      ⟨[pktSubmitIn, pktDropped], some dev0, 0⟩ =
      ([], .abort .handlerPropagated) from rfl] at hc
  exact absurd (congrArg Prod.snd hc) (by simp)

/-- **C6 (amended).** When the handler invocation of a processed
`CmdSubmit` returns an error, the writer emits no `USBIP_RET_SUBMIT` at
all — only the scan's unlink responses go out — and the writer task
terminates with the propagated error instead of continuing. -/
theorem c6_handler_error_propagates (h : HandleUrb)
    (server : List UsbDevice) (st : WriterState) (p second : UsbIpPacket)
    (rest : List UsbIpPacket) (d : UsbDevice) (e : UsbEndpoint)
    (i : Option UsbInterface) (er : Unit)
    (hq : (unlinkScan st.queue).1 = p :: second :: rest)
    (hcmd : p.enum_command = .CmdSubmit)
    (hlen : 40 + readU32At p.data 16 ≤ p.data.length)
    (himp : st.currentImport = some d)
    (hep : find_ep d ((if readU32At p.data 4 = 0 then readU32At p.data 8
      else (readU32At p.data 8).lor 0x80) % 256) = some (e, i))
    (hh : h d e i ((p.data.drop 32).take 8)
      ((p.data.drop 40).take (readU32At p.data 16)) = .error er) :
    writerIteration h server st =
      ((unlinkScan st.queue).2, .abort .handlerPropagated) ∧
    (∀ e2 ∈ (writerIteration h server st).1,
      ∀ s, e2.isRetSubmitFor s = false) := by
  have hn1 : ¬ (p.data.length < 40) := by omega
  have hn2 : ¬ (p.data.length < 40 + readU32At p.data 16) := by omega
  have hps : processSubmit h (some d) p = .error .handlerPropagated := by
    simp only [processSubmit, hn1, hn2, hep, hh, if_false]
  have hpp : processPacket h server st.currentImport p =
      .error .handlerPropagated := by
    rw [himp]
    unfold processPacket
    rw [hcmd, hps]
  have hstep : writerIteration h server st =
      match processPacket h server st.currentImport p with
      | .error a => ((unlinkScan st.queue).2, .abort a)
      | .ok r => ((unlinkScan st.queue).2 ++ r.2, .next ⟨rest, r.1, 0⟩) := by
    unfold writerIteration
    rw [hq]
  rw [hpp] at hstep
  refine ⟨hstep.trans rfl, ?_⟩
  rw [hstep]
  exact fun e2 he2 s => unlinkScan_events_not_retSubmit st.queue e2 he2 s

/-- Witness for the amended C6 at a concrete failing handler. -/
theorem c6_handler_error_propagates_witness :
    failingHandler dev0 ⟨0x80, 0, 64, 0⟩ none
      ((pktSubmitIn.data.drop 32).take 8)
      ((pktSubmitIn.data.drop 40).take (readU32At pktSubmitIn.data 16)) =
      .error () ∧
    writerIteration failingHandler []
        ⟨[pktSubmitIn, pktDropped], some dev0, 0⟩ =
      ((unlinkScan [pktSubmitIn, pktDropped]).2, .abort .handlerPropagated) :=
  ⟨rfl,
    (c6_handler_error_propagates failingHandler []
      ⟨[pktSubmitIn, pktDropped], some dev0, 0⟩ pktSubmitIn pktDropped []
      dev0 ⟨0x80, 0, 64, 0⟩ none () rfl rfl (by decide) rfl (by decide)
      rfl).1⟩

/-! ## C8: endpoint lookup misses abort the connection -/

/-- **C8.** A processed `CmdSubmit` whose resolved endpoint address (the
`ep` field, with bit 7 OR-ed in when the direction field says IN,
truncated to `u8`) matches no endpoint of the imported device aborts the
connection: `find_ep(..).unwrap()` panics, no `USBIP_RET_SUBMIT` is
emitted, and the writer terminates. -/
theorem c8_unknown_endpoint_aborts (h : HandleUrb)
    (server : List UsbDevice) (st : WriterState) (p second : UsbIpPacket)
    (rest : List UsbIpPacket) (d : UsbDevice)
    (hq : (unlinkScan st.queue).1 = p :: second :: rest)
    (hcmd : p.enum_command = .CmdSubmit)
    (hlen : 40 + readU32At p.data 16 ≤ p.data.length)
    (himp : st.currentImport = some d)
    (hep : find_ep d ((if readU32At p.data 4 = 0 then readU32At p.data 8
      else (readU32At p.data 8).lor 0x80) % 256) = none) :
    writerIteration h server st =
      ((unlinkScan st.queue).2, .abort .endpointNotFound) ∧
    (∀ e2 ∈ (writerIteration h server st).1,
      ∀ s, e2.isRetSubmitFor s = false) := by
  have hn1 : ¬ (p.data.length < 40) := by omega
  have hn2 : ¬ (p.data.length < 40 + readU32At p.data 16) := by omega
  have hps : processSubmit h (some d) p = .error .endpointNotFound := by
    simp only [processSubmit, hn1, hn2, hep, if_false]
  have hpp : processPacket h server st.currentImport p =
      .error .endpointNotFound := by
    rw [himp]
    unfold processPacket
    rw [hcmd, hps]
  have hstep : writerIteration h server st =
      match processPacket h server st.currentImport p with
      | .error a => ((unlinkScan st.queue).2, .abort a)
      | .ok r => ((unlinkScan st.queue).2 ++ r.2, .next ⟨rest, r.1, 0⟩) := by
    unfold writerIteration
    rw [hq]
  rw [hpp] at hstep
  refine ⟨hstep.trans rfl, ?_⟩
  rw [hstep]
  exact fun e2 he2 s => unlinkScan_events_not_retSubmit st.queue e2 he2 s

/-- A concrete `CMD_SUBMIT` (seq 9, direction OUT) to the unknown
endpoint 5 of `dev0`. -/
def pktSubmitEp5 : UsbIpPacket :=
  ⟨0, 9, [0x00, 0x00, 0x00, 0x01], .CmdSubmit,
   be32 0 ++ be32 0 ++ be32 5 ++ be32 0 ++ be32 0 ++ be32 0 ++ be32 0 ++
   be32 0 ++ List.replicate 8 0⟩

/-- Witness for C8: submitting to endpoint 5 of `dev0` (which has only
EP0) aborts the writer with no response for the submit. -/
theorem c8_unknown_endpoint_aborts_witness :
    find_ep dev0 ((if readU32At pktSubmitEp5.data 4 = 0 then
      readU32At pktSubmitEp5.data 8
      else (readU32At pktSubmitEp5.data 8).lor 0x80) % 256) = none ∧
    writerIteration trivialHandler []
        ⟨[pktSubmitEp5, pktDropped], some dev0, 0⟩ =
      ((unlinkScan [pktSubmitEp5, pktDropped]).2, .abort .endpointNotFound) :=
  ⟨by decide,
    (c8_unknown_endpoint_aborts trivialHandler []
      ⟨[pktSubmitEp5, pktDropped], some dev0, 0⟩ pktSubmitEp5 pktDropped []
      dev0 rfl rfl (by decide) rfl (by decide)).1⟩

/-! ## C7: OP_REQ_IMPORT -/

/-- The 0x138-byte size of the device record. -/
theorem write_dev_length (d : UsbDevice) : (write_dev d).length = 0x138 := by
  simp [write_dev, padTo, be32, be16, List.length_append, List.length_take,
    List.length_replicate]
  omega

/-- On bus ids within the 32-byte wire field, the code's
`Vec::resize(32, 0)` comparison agrees with the spec's zero-padding. -/
theorem find?_resizeTo_eq_pad (server : List UsbDevice) (data : List Nat)
    (hbus : ∀ d ∈ server, d.bus_id.length ≤ 32) :
    server.find? (fun d => decide (resizeTo 32 d.bus_id = data)) =
    server.find? (fun d =>
      decide (d.bus_id ++ List.replicate (32 - d.bus_id.length) 0 = data)) := by
  induction server with
  | nil => rfl
  | cons d t ih =>
    have hd : resizeTo 32 d.bus_id =
        d.bus_id ++ List.replicate (32 - d.bus_id.length) 0 := by
      unfold resizeTo
      rw [List.take_of_length_le (hbus d (List.mem_cons_self _ _))]
    simp only [List.find?_cons, hd]
    rw [ih (fun x hx => hbus x (List.mem_cons_of_mem _ hx))]

/-- **C7.** A processed `ReqImport` compares the 32-byte request bus id
for exact equality against each server device's bus id zero-padded to 32
bytes; the response is `01 11 00 03` followed, on a match, by a zero
status and the first matching device's 0x138-byte record — and that
device becomes the connection's imported device — and, on a miss, by
status 1 with no record and no device selected. -/
theorem c7_import_matches_padded_bus_id (h : HandleUrb)
    (server : List UsbDevice) (st : WriterState) (p second : UsbIpPacket)
    (rest : List UsbIpPacket)
    (hq : (unlinkScan st.queue).1 = p :: second :: rest)
    (hcmd : p.enum_command = .ReqImport)
    (hlen : p.data.length = 32)
    (hbus : ∀ d ∈ server, d.bus_id.length ≤ 32) :
    writerIteration h server st =
      ((unlinkScan st.queue).2 ++
        [.repImport (server.find? (fun d =>
          decide (d.bus_id ++ List.replicate (32 - d.bus_id.length) 0 =
            p.data)))],
       .next ⟨rest, server.find? (fun d =>
          decide (d.bus_id ++ List.replicate (32 - d.bus_id.length) 0 =
            p.data)), 0⟩) ∧
    eventBytes (.repImport (server.find? (fun d =>
        decide (d.bus_id ++ List.replicate (32 - d.bus_id.length) 0 =
          p.data)))) =
      [0x01, 0x11, 0x00, 0x03] ++
      (match server.find? (fun d =>
          decide (d.bus_id ++ List.replicate (32 - d.bus_id.length) 0 =
            p.data)) with
       | some d => [0, 0, 0, 0] ++ write_dev d
       | none => [0, 0, 0, 1]) ∧
    (∀ d, server.find? (fun d2 =>
        decide (d2.bus_id ++ List.replicate (32 - d2.bus_id.length) 0 =
          p.data)) = some d →
      (write_dev d).length = 0x138) := by
  have hpp : processPacket h server st.currentImport p =
      .ok (server.find? (fun d =>
          decide (d.bus_id ++ List.replicate (32 - d.bus_id.length) 0 =
            p.data)),
        [.repImport (server.find? (fun d =>
          decide (d.bus_id ++ List.replicate (32 - d.bus_id.length) 0 =
            p.data)))]) := by
    unfold processPacket
    rw [hcmd]
    rw [if_pos hlen, find?_resizeTo_eq_pad server p.data hbus]
  have hstep : writerIteration h server st =
      match processPacket h server st.currentImport p with
      | .error a => ((unlinkScan st.queue).2, .abort a)
      | .ok r => ((unlinkScan st.queue).2 ++ r.2, .next ⟨rest, r.1, 0⟩) := by
    unfold writerIteration
    rw [hq]
  rw [hpp] at hstep
  refine ⟨hstep.trans rfl, ?_, fun d _ => write_dev_length d⟩
  cases server.find? (fun d =>
      decide (d.bus_id ++ List.replicate (32 - d.bus_id.length) 0 =
        p.data)) with
  | none => rfl
  | some d => rfl

/-- A concrete `OP_REQ_IMPORT` work item asking for bus id `"0"`. -/
def pktImport0 : UsbIpPacket :=
  ⟨0, 0, [0x01, 0x11, 0x80, 0x03], .ReqImport,
   0x30 :: List.replicate 31 0⟩

/-- Witness for C7: importing bus id `"0"` against a one-device server
selects `dev0` and answers `01 11 00 03`, status 0, then the record. -/
theorem c7_import_matches_padded_bus_id_witness :
    pktImport0.data.length = 32 ∧
    (∀ d ∈ [dev0], d.bus_id.length ≤ 32) ∧
    [dev0].find? (fun d =>
      decide (d.bus_id ++ List.replicate (32 - d.bus_id.length) 0 =
        pktImport0.data)) = some dev0 ∧
    writerIteration trivialHandler [dev0]
        ⟨[pktImport0, pktDropped], none, 0⟩ =
      ([.repImport (some dev0)], .next ⟨[], some dev0, 0⟩) :=
  ⟨by decide, by decide, by decide,
    ((c7_import_matches_padded_bus_id trivialHandler [dev0]
      ⟨[pktImport0, pktDropped], none, 0⟩ pktImport0 pktDropped []
      rfl rfl (by decide) (by decide)).1).trans (by decide)⟩

/-! ## C5: payload bytes after a CMD_SUBMIT header -/

/-- **C5.** The claim states that after a `USBIP_CMD_SUBMIT` header the
reader consumes `transfer_buffer_length` payload bytes only when the
direction field is 0 (OUT), and none when it is 1 (IN).  The reader in
fact always consumes `transfer_buffer_length` bytes: at this concrete
IN submit (direction 1, transfer_buffer_length 2) the two trailing
stream bytes `AA BB` are swallowed into the packet's payload and the
remaining stream is empty, where the claim predicts they would be left
on the stream as the next command's bytes. -/
theorem c5_reader_consumes_payload_for_in :
    readerStep ([0x00, 0x00, 0x00, 0x01] ++ be32 7 ++ be32 0 ++ be32 1 ++
      be32 0 ++ be32 0 ++ be32 2 ++ be32 0 ++ be32 0 ++ be32 0 ++
      [0x80, 0x06, 0x00, 0x01, 0x00, 0x00, 0x40, 0x00] ++ [0xAA, 0xBB]) =
      some (some ⟨0, 7, [0x00, 0x00, 0x00, 0x01], .CmdSubmit,
        be32 0 ++ be32 1 ++ be32 0 ++ be32 0 ++ be32 2 ++ be32 0 ++
        be32 0 ++ be32 0 ++
        [0x80, 0x06, 0x00, 0x01, 0x00, 0x00, 0x40, 0x00] ++ [0xAA, 0xBB]⟩,
        []) := by
  decide

/-! ## C10: termination of verify_descriptor -/

theorem vdRun_stuck (desc : List Nat) (i : Nat) (hi : i < desc.length)
    (h0 : desc.getD i 0 = 0) : ∀ fuel, vdRun desc fuel i = none := by
  intro fuel
  induction fuel with
  | zero => simp [vdRun, hi]
  | succ n ih =>
    simp only [vdRun, if_pos hi, vdStep, h0, Nat.add_zero]
    exact ih

theorem vdRun_progress (desc : List Nat) (i : Nat)
    (hreach : VdReaches desc i) :
    ∀ fuel r, vdRun desc fuel 0 = some r → ∃ f2, vdRun desc f2 i = some r := by
  induction hreach with
  | refl => exact fun fuel r hr => ⟨fuel, hr⟩
  | step hr hlt ih =>
    intro fuel r hrun
    obtain ⟨f2, hf2⟩ := ih fuel r hrun
    cases f2 with
    | zero =>
      simp only [vdRun, if_pos hlt] at hf2
      cases hf2
    | succ g =>
      refine ⟨g, ?_⟩
      simpa only [vdRun, if_pos hlt] using hf2

theorem vdRun_total (desc : List Nat)
    (hadv : ∀ i, VdReaches desc i → i < desc.length → 0 < desc.getD i 0) :
    ∀ fuel off, VdReaches desc off → desc.length ≤ fuel + off →
    ∃ r, vdRun desc fuel off = some r := by
  intro fuel
  induction fuel with
  | zero =>
    intro off hr hle
    refine ⟨off, ?_⟩
    simp only [vdRun, if_neg (by omega : ¬ off < desc.length)]
  | succ n ih =>
    intro off hr hle
    by_cases hlt : off < desc.length
    · have hpos := hadv off hr hlt
      have hr2 : VdReaches desc (vdStep desc off) := .step hr hlt
      have hle2 : desc.length ≤ n + vdStep desc off := by
        unfold vdStep
        omega
      obtain ⟨r, hrr⟩ := ih (vdStep desc off) hr2 hle2
      exact ⟨r, by simp only [vdRun, if_pos hlt]; exact hrr⟩
    · exact ⟨off, by simp only [vdRun, if_neg hlt]⟩

/-- **C10.** `verify_descriptor` terminates exactly when the length-byte
walk always advances: if the walk reaches an offset strictly inside the
buffer whose byte is 0, the loop runs forever (no amount of fuel makes
it return); if every reachable in-range offset carries a nonzero byte,
fuel equal to the buffer length suffices, and the
`assert_eq!(offset, desc.len())` panics exactly when the final offset
differs from the buffer length. -/
theorem c10_verify_descriptor_termination (desc : List Nat) :
    (∀ i, VdReaches desc i → i < desc.length → desc.getD i 0 = 0 →
      ∀ fuel, verify_descriptor desc fuel = none)
    ∧ ((∀ i, VdReaches desc i → i < desc.length → 0 < desc.getD i 0) →
      ∃ off, vdRun desc desc.length 0 = some off ∧
        verify_descriptor desc desc.length =
          some (decide (off = desc.length)) ∧
        (verify_descriptor desc desc.length = some true ↔
          off = desc.length)) := by
  constructor
  · intro i hr hi h0 fuel
    unfold verify_descriptor
    suffices hnone : vdRun desc fuel 0 = none by rw [hnone]; rfl
    cases hv : vdRun desc fuel 0 with
    | none => rfl
    | some r =>
      obtain ⟨f2, hf2⟩ := vdRun_progress desc i hr fuel r hv
      rw [vdRun_stuck desc i hi h0 f2] at hf2
      cases hf2
  · intro hadv
    obtain ⟨r, hr⟩ := vdRun_total desc hadv desc.length 0 .refl (by omega)
    refine ⟨r, hr, ?_, ?_⟩
    · unfold verify_descriptor
      rw [hr]
      rfl
    · unfold verify_descriptor
      rw [hr]
      simp

/-- The walk on the buffer `[2, 0]` only visits offsets 0 and 2. -/
theorem vdReaches_two_zero (i : Nat) (hr : VdReaches [2, 0] i) :
    i = 0 ∨ i = 2 := by
  induction hr with
  | refl => exact Or.inl rfl
  | step hr2 hlt ih =>
    rcases ih with rfl | rfl
    · right
      rfl
    · exact absurd hlt (by decide)

/-- Witness for C10: on `[0]` the walk is stuck at offset 0 and the
verifier never returns; on `[2, 0]` the walk advances past the end in
one step and the assertion succeeds. -/
theorem c10_verify_descriptor_termination_witness :
    verify_descriptor [0] 5 = none ∧
    (∃ off, vdRun [2, 0] 2 0 = some off ∧
      verify_descriptor [2, 0] 2 = some (decide (off = 2)) ∧
      (verify_descriptor [2, 0] 2 = some true ↔ off = 2)) :=
  ⟨(c10_verify_descriptor_termination [0]).1 0 .refl (by decide) (by decide)
      5,
   (c10_verify_descriptor_termination [2, 0]).2 (fun i hr hlt => by
      rcases vdReaches_two_zero i hr with rfl | rfl
      · decide
      · exact absurd hlt (by decide))⟩

end Usbip
